import Mathlib

/-!
Shallow embedding of the GeoTABS-India feasibility calculation engine
(`src/calc_engine.py`).  Python dictionaries of reference data become lookup
functions returning `Option`, numeric values become exact rationals, and
Python's `round` (banker's rounding, half to even) is modelled exactly on ℚ.
`CalculationEngine.run` becomes `run : Inputs → Except EngineError RunResult`:
`ValidationError` and the possible `ZeroDivisionError` in ground-loop sizing
are the two error outcomes.  The engine is instantiated with empty defaults in
`src/app.py` (`CalculationEngine()`), so the merge `{**defaults, **inputs}`
is the identity on the caller's record here.
-/

/-- Python `round(q)` on an exact rational: round half to even (banker's
rounding), the semantics of Python's builtin `round`. -/
def rnd (q : ℚ) : ℤ :=
  let f : ℤ := ⌊q⌋
  let r : ℚ := q - f
  if r < 1/2 then f
  else if 1/2 < r then f + 1
  else if f % 2 = 0 then f else f + 1

/-- Python `round(q, n)`: banker's rounding to `n` decimal places. -/
def roundTo (n : ℕ) (q : ℚ) : ℚ := (rnd (q * (10:ℚ)^n) : ℚ) / (10:ℚ)^n

/-- Python `int(q)`: truncation toward zero. -/
def pytrunc (q : ℚ) : ℤ := if 0 ≤ q then ⌊q⌋ else -⌊-q⌋

/-- One entry of `INDIA_CLIMATE_ZONES`. -/
structure ClimateData where
  examples : String
  cooling_months : ℚ
  heating_months : ℚ
  ground_temp_C : ℚ
  suitability_score : ℤ
  cooling_hours_per_day : ℚ
  heating_hours_per_day : ℚ
deriving DecidableEq, Repr, Inhabited

/-- The `"Composite"` entry, used as fallback via `.get(climate, ...)`. -/
def compositeData : ClimateData :=
  { examples := "Delhi, Punjab, Haryana, UP", cooling_months := 6,
    heating_months := 3, ground_temp_C := 24, suitability_score := 3,
    cooling_hours_per_day := 9, heating_hours_per_day := 6 }

/-- The `INDIA_CLIMATE_ZONES` dict, as a lookup function. -/
def INDIA_CLIMATE_ZONES (z : String) : Option ClimateData :=
  if z = "Hot-Dry" then
    some { examples := "Rajasthan, Gujarat, Maharashtra interior",
           cooling_months := 8, heating_months := 2, ground_temp_C := 28,
           suitability_score := 3, cooling_hours_per_day := 10,
           heating_hours_per_day := 3 }
  else if z = "Warm-Humid" then
    some { examples := "Kerala, Goa, Chennai, Coastal Karnataka",
           cooling_months := 10, heating_months := 0, ground_temp_C := 26,
           suitability_score := 3, cooling_hours_per_day := 8,
           heating_hours_per_day := 0 }
  else if z = "Composite" then some compositeData
  else if z = "Temperate" then
    some { examples := "Himachal Pradesh, Uttarakhand",
           cooling_months := 3, heating_months := 6, ground_temp_C := 18,
           suitability_score := 2, cooling_hours_per_day := 6,
           heating_hours_per_day := 8 }
  else if z = "Cold" then
    some { examples := "Jammu & Kashmir, Ladakh, High altitude",
           cooling_months := 1, heating_months := 8, ground_temp_C := 12,
           suitability_score := 2, cooling_hours_per_day := 4,
           heating_hours_per_day := 10 }
  else none

/-- The `INDIA_COOLING_INTENSITY` dict: building type → (tier → kW/m²), the inner
dict as an association list. -/
def INDIA_COOLING_INTENSITY (btype : String) : Option (List (String × ℚ)) :=
  if btype = "Office" then
    some [("Tier-1", 0.18), ("Tier-2", 0.14), ("Tier-3", 0.10)]
  else if btype = "Educational" then
    some [("Tier-1", 0.13), ("Tier-2", 0.10), ("Tier-3", 0.07)]
  else if btype = "Residential" then
    some [("Tier-1", 0.12), ("Tier-2", 0.08), ("Tier-3", 0.05)]
  else if btype = "Hospital" then
    some [("Tier-1", 0.22), ("Tier-2", 0.18), ("Tier-3", 0.15)]
  else if btype = "Hotel" then
    some [("Tier-1", 0.18), ("Tier-2", 0.14), ("Tier-3", 0.10)]
  else if btype = "IT/Tech Park" then
    some [("Tier-1", 0.20), ("Tier-2", 0.16), ("Tier-3", 0.12)]
  else none

/-- The `INDIA_ELECTRICITY_RATES` dict: state → (commercial, residential) Rs/kWh. -/
def INDIA_ELECTRICITY_RATES (s : String) : Option (ℚ × ℚ) :=
  if s = "Maharashtra" then some (11.50, 8.50)
  else if s = "Delhi" then some (8.50, 7.00)
  else if s = "Tamil Nadu" then some (9.00, 6.00)
  else if s = "Karnataka" then some (10.00, 7.50)
  else if s = "Gujarat" then some (8.00, 6.50)
  else if s = "Rajasthan" then some (9.50, 7.00)
  else if s = "Uttar Pradesh" then some (9.00, 7.00)
  else if s = "West Bengal" then some (9.50, 7.50)
  else if s = "Telangana" then some (10.00, 7.00)
  else if s = "Kerala" then some (8.50, 6.50)
  else if s = "Punjab" then some (8.00, 6.50)
  else if s = "Haryana" then some (9.00, 7.50)
  else if s = "Madhya Pradesh" then some (9.00, 7.00)
  else if s = "Andhra Pradesh" then some (9.50, 7.00)
  else if s = "Odisha" then some (8.50, 6.50)
  else if s = "National Average" then some (9.50, 7.50)
  else none

/-- The `INDIA_SOIL_TYPES` dict (soil type → thermal conductivity W/m·K); present
in the source as reference data, not read by the pipeline itself. -/
def INDIA_SOIL_TYPES (s : String) : Option ℚ :=
  if s = "Alluvial Plains" then some 2.2
  else if s = "Black Soil" then some 1.8
  else if s = "Red Soil" then some 1.6
  else if s = "Laterite" then some 1.4
  else if s = "Sandy" then some 2.5
  else if s = "Rocky/Hard" then some 3.0
  else none

/-- The `CAPITAL_COST_PER_KW` dict: climate zone → Rs per kW of cooling capacity. -/
def CAPITAL_COST_PER_KW (z : String) : Option ℚ :=
  if z = "Hot-Dry" then some 18000
  else if z = "Warm-Humid" then some 22000
  else if z = "Composite" then some 20000
  else if z = "Temperate" then some 21000
  else if z = "Cold" then some 25000
  else none

/-- The constant `BOREHOLE_COST_PER_METER = 900`. -/
def BOREHOLE_COST_PER_METER : ℚ := 900

/-- Value supplied for `peakCooling_kW` in a request: a number, or the empty
string (both `None`/absent and `""`/`0` select the estimation path in `run`). -/
inductive PeakVal where
  | num (q : ℚ)
  | emptyStr
deriving DecidableEq, Repr

/-- A caller-supplied input record; `none` marks an absent key. -/
structure Inputs where
  buildingArea_m2 : Option ℚ := none
  buildingType : Option String := none
  buildingTier : Option String := none
  peakCooling_kW : Option PeakVal := none
  gsHeatPumpCOP : Option ℚ := none
  baseline_COP : Option ℚ := none
  oversize_factor : Option ℚ := none
  climate : Option String := none
  state : Option String := none
  soilConductivity_WpmK : Option ℚ := none
deriving DecidableEq, Repr, Inhabited

/-- The normalized (merged) record after `run`'s peak-cooling step: the
original fields, plus the resolved `peakCooling_kW` float and the
`peakCooling_source` tag that `run` writes into the dict. -/
structure NormRec where
  base : Inputs
  peakCooling_kW : ℚ
  peakCooling_source : String
deriving DecidableEq, Repr, Inhabited

/-- The errors the pipeline can raise: `ValidationError` (with its message)
from `validate_inputs`, or Python's `ZeroDivisionError` from the loop-length
division in `ground_loop_sizing`. -/
inductive EngineError where
  | validation (msg : String)
  | zeroDivision
deriving DecidableEq, Repr

/-- Output of `simple_thermal_model`. -/
structure ModelOut where
  load_kW : ℚ
  capacity_kW : ℚ
  c_l_ratio : ℚ
deriving DecidableEq, Repr, Inhabited

/-- Output of `ground_loop_sizing`. -/
structure GroundLoopOut where
  loop_length_m : ℚ
  borehole_count : ℤ
  land_area_m2 : ℚ
  watts_per_meter : ℚ
  borehole_cost_INR : ℚ
deriving DecidableEq, Repr, Inhabited

/-- Output of `energy_estimate`. -/
structure EnergyOut where
  annual_kWh : ℚ
  baseline_kWh : ℚ
  savings_kWh : ℚ
  operating_hours : ℚ
  effective_hours : ℚ
  diversity_factor : ℚ
deriving DecidableEq, Repr, Inhabited

/-- The `capital_cost_breakdown` sub-dict of `economic_analysis`. -/
structure EconBreakdown where
  heat_pump : ℚ
  ground_loop : ℚ
  tabs_integration : ℚ
  controls : ℚ
deriving DecidableEq, Repr, Inhabited

/-- Output of `economic_analysis`. -/
structure EconOut where
  electricity_rate : ℚ
  geotabs_cost_INR : ℚ
  baseline_cost_INR : ℚ
  annual_savings_INR : ℚ
  capital_cost_INR : ℚ
  capital_cost_breakdown : EconBreakdown
  payback_years : ℚ
deriving DecidableEq, Repr, Inhabited

/-- The `scores` dict of `ranking_scores`. -/
structure Scores where
  load : ℤ
  capacity : ℤ
  energy : ℤ
  climate : ℤ
  economic : ℤ
deriving DecidableEq, Repr, Inhabited

/-- The `co2` sub-dict of `run`'s result. -/
structure CO2Out where
  geotabs_tonnes : ℚ
  baseline_tonnes : ℚ
  savings_tonnes : ℚ
deriving DecidableEq, Repr, Inhabited

/-- The result record assembled by `run`. -/
structure RunResult where
  inputs : NormRec
  model : ModelOut
  ground_loop : GroundLoopOut
  energy : EnergyOut
  economics : EconOut
  co2 : CO2Out
  co2_savings_tonnes : ℚ
  climate_data : ClimateData
  scores : Scores
  total_score : ℤ
  weighted_score : ℚ
  feasibility_recommendation : String
deriving DecidableEq, Repr, Inhabited

/-- The intensity lookup inside `estimate_peak_cooling`: type not found →
`0.15`; tier not found under a found type → `.get(tier, 0.15)` → `0.15`.
(All values of `INDIA_COOLING_INTENSITY` are dicts, so the `isinstance`
branch taken is always the dict one.) -/
def intensityFor (btype tier : String) : ℚ :=
  match INDIA_COOLING_INTENSITY btype with
  | some tbl => (tbl.lookup tier).getD 0.15
  | none => 0.15

/-- Source `CalculationEngine.estimate_peak_cooling`, with the `inputs.get` defaults
`'Office'`, `'Tier-2'`, `0` inlined. -/
def estimate_peak_cooling (i : Inputs) : ℚ :=
  (i.buildingArea_m2.getD 0) * intensityFor (i.buildingType.getD "Office") (i.buildingTier.getD "Tier-2")

/-- The peak-cooling normalization at the top of `run`: `peak in [None, "", 0]`
selects the estimate (rounded to 2 decimals) and the "Estimated" tag,
otherwise `float(peak)` and the "User defined" tag. -/
def normalizeInputs (i : Inputs) : NormRec :=
  match i.peakCooling_kW with
  | none =>
    { base := i, peakCooling_kW := roundTo 2 (estimate_peak_cooling i),
      peakCooling_source := "Estimated from Indian building standards" }
  | some PeakVal.emptyStr =>
    { base := i, peakCooling_kW := roundTo 2 (estimate_peak_cooling i),
      peakCooling_source := "Estimated from Indian building standards" }
  | some (PeakVal.num q) =>
    if q = 0 then
      { base := i, peakCooling_kW := roundTo 2 (estimate_peak_cooling i),
        peakCooling_source := "Estimated from Indian building standards" }
    else
      { base := i, peakCooling_kW := q, peakCooling_source := "User defined" }

/-- Source `CalculationEngine.validate_inputs`, applied (as in `run`) to the
normalized record, where `peakCooling_kW` is always present and is a float
(truthy iff nonzero). -/
def validate_inputs (n : NormRec) : Except EngineError Unit :=
  match n.base.buildingArea_m2 with
  | none => Except.error (EngineError.validation "Invalid building area (buildingArea_m2)")
  | some a =>
    if a ≤ 0 then Except.error (EngineError.validation "Invalid building area (buildingArea_m2)")
    else if n.peakCooling_kW ≠ 0 ∧ n.peakCooling_kW ≤ 0 then
      Except.error (EngineError.validation "peakCooling_kW must be > 0")
    else
      match n.base.gsHeatPumpCOP with
      | some c =>
        if c ≤ 0 then Except.error (EngineError.validation "gsHeatPumpCOP must be > 0")
        else Except.ok ()
      | none => Except.ok ()

/-- Source `CalculationEngine.simple_thermal_model` on the normalized record:
`load_kW = inputs.get('peakCooling_kW') or self.estimate_peak_cooling(inputs)`
(the normalized peak is used when truthy, i.e. nonzero). -/
def simple_thermal_model (n : NormRec) : ModelOut :=
  let load_kW := if n.peakCooling_kW ≠ 0 then n.peakCooling_kW else estimate_peak_cooling n.base
  let oversize := n.base.oversize_factor.getD 1.2
  let capacity_kW := load_kW * oversize
  let c_l_ratio := capacity_kW / max load_kW 0.000001
  { load_kW := roundTo 3 load_kW, capacity_kW := roundTo 3 capacity_kW,
    c_l_ratio := roundTo 3 c_l_ratio }

/-- Source `CalculationEngine.ground_loop_sizing`.  Python raises `ZeroDivisionError`
when `watts_per_meter` is zero, modelled as the explicit error branch.  (The
source also looks up the climate-zone data here, bound but unused.) -/
def ground_loop_sizing (n : NormRec) (peak_load_kW : ℚ) : Except EngineError GroundLoopOut :=
  let soil_k := n.base.soilConductivity_WpmK.getD 2.0
  let watts_per_meter := soil_k * 8
  if watts_per_meter = 0 then Except.error EngineError.zeroDivision
  else
    let required_loop_length_m := (peak_load_kW * 1000) / watts_per_meter
    let borehole_count : ℤ := max 1 (rnd (required_loop_length_m / 100))
    Except.ok
      { loop_length_m := (rnd required_loop_length_m : ℚ),
        borehole_count := borehole_count,
        land_area_m2 := (borehole_count * 25 : ℤ),
        watts_per_meter := roundTo 1 watts_per_meter,
        borehole_cost_INR := ((borehole_count * 100 : ℤ) : ℚ) * BOREHOLE_COST_PER_METER }

/-- Source `CalculationEngine.energy_estimate`. -/
def energy_estimate (n : NormRec) (m : ModelOut) : EnergyOut :=
  let cd := (INDIA_CLIMATE_ZONES (n.base.climate.getD "Composite")).getD compositeData
  let cooling_hours := cd.cooling_hours_per_day * 30 * cd.cooling_months
  let heating_hours := cd.heating_hours_per_day * 30 * cd.heating_months
  let total_hours := cooling_hours + heating_hours
  let diversity_factor : ℚ := 0.7
  let effective_hours := total_hours * diversity_factor
  let cop := n.base.gsHeatPumpCOP.getD 4.0
  let annual_kWh := m.load_kW * effective_hours / max cop 0.1
  let baseline_cop := n.base.baseline_COP.getD 3.0
  let baseline_kWh := m.load_kW * effective_hours / max baseline_cop 0.1
  let savings_kWh := baseline_kWh - annual_kWh
  { annual_kWh := roundTo 2 annual_kWh, baseline_kWh := roundTo 2 baseline_kWh,
    savings_kWh := roundTo 2 savings_kWh,
    operating_hours := (rnd total_hours : ℚ),
    effective_hours := (rnd effective_hours : ℚ),
    diversity_factor := diversity_factor }

/-- The electricity-rate selection in `economic_analysis`: commercial rate for
Office/Hospital/Hotel/IT buildings, residential otherwise; state looked up
with fallback "National Average". -/
def electricityRate (n : NormRec) : ℚ :=
  let btype := n.base.buildingType.getD "Office"
  let rates := (INDIA_ELECTRICITY_RATES (n.base.state.getD "National Average")).getD (9.50, 7.50)
  if btype = "Office" ∨ btype = "Hospital" ∨ btype = "Hotel" ∨ btype = "IT/Tech Park" then
    rates.1
  else rates.2

/-- Heat-pump equipment component of the capital cost (30% allocation). -/
def heatPumpCost (n : NormRec) (m : ModelOut) : ℚ :=
  m.capacity_kW * ((CAPITAL_COST_PER_KW (n.base.climate.getD "Composite")).getD 20000) * 0.3

/-- TABS slab-piping component of the capital cost. -/
def tabsCost (n : NormRec) : ℚ := (n.base.buildingArea_m2.getD 1000) * 1800

/-- Controls/ancillaries component of the capital cost. -/
def controlsCost (m : ModelOut) : ℚ := m.capacity_kW * 2000

/-- Total (unrounded) capital cost: the four components summed. -/
def capitalCost (n : NormRec) (m : ModelOut) (gl : GroundLoopOut) : ℚ :=
  heatPumpCost n m + gl.borehole_cost_INR + tabsCost n + controlsCost m

/-- Source `CalculationEngine.economic_analysis`. -/
def economic_analysis (n : NormRec) (e : EnergyOut) (m : ModelOut) (gl : GroundLoopOut) : EconOut :=
  let rate := electricityRate n
  let geotabs_cost_INR := e.annual_kWh * rate
  let baseline_cost_INR := e.baseline_kWh * rate
  let annual_savings_INR := e.savings_kWh * rate
  let capital_cost_INR := capitalCost n m gl
  let payback_years := if 0 < annual_savings_INR then capital_cost_INR / annual_savings_INR else 999
  { electricity_rate := rate,
    geotabs_cost_INR := roundTo 2 geotabs_cost_INR,
    baseline_cost_INR := roundTo 2 baseline_cost_INR,
    annual_savings_INR := roundTo 2 annual_savings_INR,
    capital_cost_INR := roundTo 2 capital_cost_INR,
    capital_cost_breakdown :=
      { heat_pump := roundTo 2 (heatPumpCost n m),
        ground_loop := roundTo 2 gl.borehole_cost_INR,
        tabs_integration := roundTo 2 (tabsCost n),
        controls := roundTo 2 (controlsCost m) },
    payback_years := roundTo 1 payback_years }

/-- Source `CalculationEngine.co2_estimate`. -/
def co2_estimate (energy_kwh : ℚ) (emission_factor : ℚ := 0.82) : ℚ :=
  roundTo 3 (energy_kwh * emission_factor / 1000)

/-- Source `CalculationEngine.ranking_scores`.  Note the absent-climate default here
is `'Temperate'` (line 301 of the source), unlike every other stage. -/
def ranking_scores (n : NormRec) (m : ModelOut) (e : EnergyOut) (ec : EconOut) : Scores :=
  let a := n.base.buildingArea_m2.getD 0
  let load := min 3 (max 0 (pytrunc (a / 500)))
  let cl := m.c_l_ratio
  let capacity : ℤ := if 1.1 ≤ cl then 3 else if 0.9 ≤ cl then 2 else 1
  let sk := e.savings_kWh
  let energy : ℤ := if sk ≤ 0 then 0 else if sk < 20000 then 1 else if sk < 50000 then 2 else 3
  let cd := (INDIA_CLIMATE_ZONES (n.base.climate.getD "Temperate")).getD compositeData
  let payback := ec.payback_years
  let economic : ℤ := if payback < 7 then 3 else if payback < 12 then 2 else if payback < 18 then 1 else 0
  { load := load, capacity := capacity, energy := energy,
    climate := cd.suitability_score, economic := economic }

/-- The result-assembly tail of `run` (everything after ground-loop sizing
succeeds): energy, economics, CO2, scores, total, label, weighted score. -/
def assemble (n : NormRec) (gl : GroundLoopOut) : RunResult :=
  let m := simple_thermal_model n
  let e := energy_estimate n m
  let ec := economic_analysis n e m gl
  let co2_geotabs := co2_estimate e.annual_kWh
  let co2_baseline := co2_estimate e.baseline_kWh
  let co2_savings := co2_estimate e.savings_kWh
  let s := ranking_scores n m e ec
  let total := s.load + s.capacity + s.energy + s.climate + s.economic
  let feasibility :=
    if 12 ≤ total then "Highly Feasible"
    else if 8 ≤ total then "Conditionally Feasible"
    else "Not Recommended"
  let weighted : ℚ := 0.25 * s.load + 0.25 * s.capacity + 0.3 * s.energy + 0.2 * s.climate
  { inputs := n, model := m, ground_loop := gl, energy := e, economics := ec,
    co2 := { geotabs_tonnes := co2_geotabs, baseline_tonnes := co2_baseline,
             savings_tonnes := co2_savings },
    co2_savings_tonnes := co2_savings,
    climate_data := (INDIA_CLIMATE_ZONES (n.base.climate.getD "Composite")).getD compositeData,
    scores := s, total_score := total, weighted_score := roundTo 3 weighted,
    feasibility_recommendation := feasibility }

/-- Source `CalculationEngine.run`: normalize, validate, then the calculation
pipeline; `ValidationError` and `ZeroDivisionError` propagate. -/
def run (i : Inputs) : Except EngineError RunResult :=
  match validate_inputs (normalizeInputs i) with
  | Except.error e => Except.error e
  | Except.ok _ =>
    match ground_loop_sizing (normalizeInputs i) (simple_thermal_model (normalizeInputs i)).capacity_kW with
    | Except.error e => Except.error e
    | Except.ok gl => Except.ok (assemble (normalizeInputs i) gl)

/-- The result of a successful `run`, as a total function (junk on error);
used to state closed witness facts without an existential. -/
def resOf (i : Inputs) : RunResult :=
  match run i with
  | Except.ok r => r
  | Except.error _ => default

/-! ### Helper lemmas -/

theorem normalizeInputs_base (i : Inputs) : (normalizeInputs i).base = i := by
  unfold normalizeInputs
  cases hpk : i.peakCooling_kW with
  | none => rfl
  | some pv =>
    cases pv with
    | num q => by_cases hq : q = 0 <;> simp [hq]
    | emptyStr => rfl

theorem rnd_nonneg {q : ℚ} (h : 0 ≤ q) : 0 ≤ rnd q := by
  unfold rnd
  have h0 : (0:ℤ) ≤ ⌊q⌋ := Int.floor_nonneg.mpr h
  dsimp only
  split_ifs <;> omega

theorem roundTo_nonneg (n : ℕ) {q : ℚ} (h : 0 ≤ q) : 0 ≤ roundTo n q := by
  unfold roundTo
  have h1 : 0 ≤ rnd (q * (10:ℚ)^n) := rnd_nonneg (by positivity)
  have h2 : (0:ℚ) ≤ (rnd (q * (10:ℚ)^n) : ℚ) := by exact_mod_cast h1
  positivity

theorem lookup_getD_nonneg :
    ∀ (l : List (String × ℚ)), (∀ p ∈ l, 0 ≤ p.2) → ∀ (t : String) (d : ℚ), 0 ≤ d →
      0 ≤ ((l.lookup t).getD d)
  | [], _, t, d, hd => by simp [List.lookup, hd]
  | (k, v) :: rest, hl, t, d, hd => by
    unfold List.lookup
    by_cases hk : t == k
    · simpa [hk] using hl (k, v) (List.mem_cons_self _ _)
    · simpa [hk] using lookup_getD_nonneg rest (fun p hp => hl p (List.mem_cons_of_mem _ hp)) t d hd

theorem intensityFor_nonneg (bt t : String) : 0 ≤ intensityFor bt t := by
  unfold intensityFor
  cases h : INDIA_COOLING_INTENSITY bt with
  | none => norm_num
  | some tbl =>
    unfold INDIA_COOLING_INTENSITY at h
    split_ifs at h <;> cases h <;>
      exact lookup_getD_nonneg _ (by with_unfolding_all decide) t _ (by norm_num)

theorem estimate_peak_cooling_nonneg (i : Inputs)
    (h : 0 ≤ i.buildingArea_m2.getD 0) : 0 ≤ estimate_peak_cooling i :=
  mul_nonneg h (intensityFor_nonneg _ _)

theorem normalize_peak_nonneg (i : Inputs)
    (harea : 0 ≤ i.buildingArea_m2.getD 0)
    (hpeak : ∀ q, i.peakCooling_kW = some (PeakVal.num q) → q ≠ 0 → 0 ≤ q) :
    0 ≤ (normalizeInputs i).peakCooling_kW := by
  have hest : 0 ≤ roundTo 2 (estimate_peak_cooling i) :=
    roundTo_nonneg 2 (estimate_peak_cooling_nonneg i harea)
  unfold normalizeInputs
  cases hpk : i.peakCooling_kW with
  | none => exact hest
  | some pv =>
    cases pv with
    | num q =>
      by_cases hq : q = 0
      · simpa [hq] using hest
      · simpa [hq] using hpeak q hpk hq
    | emptyStr => exact hest

theorem validate_inputs_eq_ok_iff (n : NormRec) :
    validate_inputs n = Except.ok () ↔
      ((∃ a, n.base.buildingArea_m2 = some a ∧ 0 < a)
        ∧ ¬(n.peakCooling_kW ≠ 0 ∧ n.peakCooling_kW ≤ 0)
        ∧ (∀ c, n.base.gsHeatPumpCOP = some c → 0 < c)) := by
  unfold validate_inputs
  cases harea : n.base.buildingArea_m2 with
  | none => simp [harea]
  | some a =>
    by_cases ha : a ≤ 0
    · simp [harea, ha, not_lt.mpr ha]
    · by_cases hp : n.peakCooling_kW ≠ 0 ∧ n.peakCooling_kW ≤ 0
      · simp [harea, ha, hp]
      · cases hc : n.base.gsHeatPumpCOP with
        | none => simp [harea, ha, hp, hc, not_le.mp ha]
        | some c =>
          by_cases hcc : c ≤ 0
          · simp [harea, ha, hp, hc, hcc, not_lt.mpr hcc]
          · simp [harea, ha, hp, hc, hcc, not_le.mp ha, not_le.mp hcc]

theorem validate_inputs_error_iff (n : NormRec) :
    (∃ m, validate_inputs n = Except.error (EngineError.validation m)) ↔
      ((n.base.buildingArea_m2 = none ∨ (∃ a, n.base.buildingArea_m2 = some a ∧ a ≤ 0))
        ∨ (n.peakCooling_kW ≠ 0 ∧ n.peakCooling_kW ≤ 0)
        ∨ (∃ c, n.base.gsHeatPumpCOP = some c ∧ c ≤ 0)) := by
  unfold validate_inputs
  cases harea : n.base.buildingArea_m2 with
  | none => simp [harea]
  | some a =>
    by_cases ha : a ≤ 0
    · simp [harea, ha]
    · by_cases hp : n.peakCooling_kW ≠ 0 ∧ n.peakCooling_kW ≤ 0
      · simp [harea, ha, hp]
      · cases hc : n.base.gsHeatPumpCOP with
        | none => simp [harea, ha, hp, hc]
        | some c => by_cases hcc : c ≤ 0 <;> simp [harea, ha, hp, hc, hcc]

theorem ground_loop_sizing_error_shape {n : NormRec} {c : ℚ} {e : EngineError}
    (h : ground_loop_sizing n c = Except.error e) : e = EngineError.zeroDivision := by
  unfold ground_loop_sizing at h
  by_cases hw : n.base.soilConductivity_WpmK.getD 2.0 * 8 = 0
  · rw [if_pos hw] at h
    injection h with h2
    exact h2.symm
  · rw [if_neg hw] at h
    cases h

theorem ground_loop_sizing_isOk (n : NormRec) (c : ℚ)
    (h : n.base.soilConductivity_WpmK.getD 2.0 ≠ 0) :
    ∃ gl, ground_loop_sizing n c = Except.ok gl := by
  unfold ground_loop_sizing
  rw [if_neg (mul_ne_zero h (by norm_num))]
  exact ⟨_, rfl⟩

theorem run_eq_ok_of {i : Inputs} {gl : GroundLoopOut}
    (hv : validate_inputs (normalizeInputs i) = Except.ok ())
    (hg : ground_loop_sizing (normalizeInputs i)
            (simple_thermal_model (normalizeInputs i)).capacity_kW = Except.ok gl) :
    run i = Except.ok (assemble (normalizeInputs i) gl) := by
  unfold run
  rw [hv, hg]

theorem run_ok_elim {i : Inputs} {r : RunResult} (h : run i = Except.ok r) :
    validate_inputs (normalizeInputs i) = Except.ok () ∧
      ∃ gl, ground_loop_sizing (normalizeInputs i)
              (simple_thermal_model (normalizeInputs i)).capacity_kW = Except.ok gl ∧
            r = assemble (normalizeInputs i) gl := by
  unfold run at h
  cases hv : validate_inputs (normalizeInputs i) with
  | error e => rw [hv] at h; cases h
  | ok u =>
    cases u
    rw [hv] at h
    cases hg : ground_loop_sizing (normalizeInputs i)
        (simple_thermal_model (normalizeInputs i)).capacity_kW with
    | error e => rw [hg] at h; cases h
    | ok gl =>
      rw [hg] at h
      exact ⟨rfl, gl, rfl, ((Except.ok.injEq _ _).mp h).symm⟩

theorem run_validation_error_iff (i : Inputs) :
    (∃ m, run i = Except.error (EngineError.validation m)) ↔
      (∃ m, validate_inputs (normalizeInputs i) = Except.error (EngineError.validation m)) := by
  unfold run
  cases hv : validate_inputs (normalizeInputs i) with
  | error e => simp [hv]
  | ok u =>
    cases u
    cases hg : ground_loop_sizing (normalizeInputs i)
        (simple_thermal_model (normalizeInputs i)).capacity_kW with
    | error e =>
      have he := ground_loop_sizing_error_shape hg
      subst he
      simp [hv, hg]
    | ok gl => simp [hv, hg]

theorem validate_inputs_ok_of (i : Inputs) (a : ℚ)
    (harea : i.buildingArea_m2 = some a) (hpos : 0 < a)
    (hpeak : ∀ q, i.peakCooling_kW = some (PeakVal.num q) → q ≠ 0 → 0 < q)
    (hcop : ∀ c, i.gsHeatPumpCOP = some c → 0 < c) :
    validate_inputs (normalizeInputs i) = Except.ok () := by
  rw [validate_inputs_eq_ok_iff]
  have hb := normalizeInputs_base i
  have hpn : 0 ≤ (normalizeInputs i).peakCooling_kW :=
    normalize_peak_nonneg i (by simp [harea, hpos.le])
      (fun q hq hne => (hpeak q hq hne).le)
  refine ⟨⟨a, by rw [hb, harea], hpos⟩, ?_, ?_⟩
  · rintro ⟨hne, hle⟩
    exact hne (le_antisymm hle hpn)
  · intro c hc
    rw [hb] at hc
    exact hcop c hc

theorem suitability_bounds (z : String) :
    2 ≤ ((INDIA_CLIMATE_ZONES z).getD compositeData).suitability_score ∧
      ((INDIA_CLIMATE_ZONES z).getD compositeData).suitability_score ≤ 3 := by
  unfold INDIA_CLIMATE_ZONES
  split_ifs <;> simp [compositeData]

theorem ranking_scores_bounds (n : NormRec) (m : ModelOut) (e : EnergyOut) (ec : EconOut) :
    (0 ≤ (ranking_scores n m e ec).load ∧ (ranking_scores n m e ec).load ≤ 3)
    ∧ (1 ≤ (ranking_scores n m e ec).capacity ∧ (ranking_scores n m e ec).capacity ≤ 3)
    ∧ (0 ≤ (ranking_scores n m e ec).energy ∧ (ranking_scores n m e ec).energy ≤ 3)
    ∧ (2 ≤ (ranking_scores n m e ec).climate ∧ (ranking_scores n m e ec).climate ≤ 3)
    ∧ (0 ≤ (ranking_scores n m e ec).economic ∧ (ranking_scores n m e ec).economic ≤ 3) := by
  have hsuit := suitability_bounds (n.base.climate.getD "Temperate")
  unfold ranking_scores
  dsimp only
  refine ⟨⟨?_, ?_⟩, ⟨?_, ?_⟩, ⟨?_, ?_⟩, hsuit, ⟨?_, ?_⟩⟩ <;> omega

theorem assemble_total_score (n : NormRec) (gl : GroundLoopOut) :
    (assemble n gl).total_score =
      (ranking_scores n (simple_thermal_model n)
          (energy_estimate n (simple_thermal_model n))
          (economic_analysis n (energy_estimate n (simple_thermal_model n))
            (simple_thermal_model n) gl)).load
      + (ranking_scores n (simple_thermal_model n)
          (energy_estimate n (simple_thermal_model n))
          (economic_analysis n (energy_estimate n (simple_thermal_model n))
            (simple_thermal_model n) gl)).capacity
      + (ranking_scores n (simple_thermal_model n)
          (energy_estimate n (simple_thermal_model n))
          (economic_analysis n (energy_estimate n (simple_thermal_model n))
            (simple_thermal_model n) gl)).energy
      + (ranking_scores n (simple_thermal_model n)
          (energy_estimate n (simple_thermal_model n))
          (economic_analysis n (energy_estimate n (simple_thermal_model n))
            (simple_thermal_model n) gl)).climate
      + (ranking_scores n (simple_thermal_model n)
          (energy_estimate n (simple_thermal_model n))
          (economic_analysis n (energy_estimate n (simple_thermal_model n))
            (simple_thermal_model n) gl)).economic := rfl

theorem ground_loop_sizing_soil_zero (n : NormRec) (c : ℚ)
    (h : n.base.soilConductivity_WpmK = some 0) :
    ground_loop_sizing n c = Except.error EngineError.zeroDivision := by
  unfold ground_loop_sizing
  rw [h]
  simp [Option.getD]

/-! ### Claim C1 -/

/-- A record with positive area but a zero heat-pump COP. -/
def c1BadCop : Inputs := { buildingArea_m2 := some 1000, gsHeatPumpCOP := some 0 }

/-- A record with positive area but zero soil conductivity. -/
def c1BadSoil : Inputs := { buildingArea_m2 := some 1000, soilConductivity_WpmK := some 0 }

/-- C1 (counterexample): the claim "for every input record whose building area
is > 0, `run` completes without raising any error" is false as stated: with
area 1000 (> 0) a supplied zero COP makes `run` raise `ValidationError`, and a
supplied zero soil conductivity makes it raise a division-by-zero error. -/
theorem c1_counterexample :
    c1BadCop.buildingArea_m2 = some 1000 ∧ (0:ℚ) < 1000 ∧
    run c1BadCop = Except.error (EngineError.validation "gsHeatPumpCOP must be > 0") ∧
    c1BadSoil.buildingArea_m2 = some 1000 ∧
    run c1BadSoil = Except.error EngineError.zeroDivision := by
  refine ⟨rfl, by norm_num, ?_, rfl, ?_⟩ <;> with_unfolding_all rfl

/-- C1 (amended): for every input record whose building area is > 0 and that
additionally passes validation (any supplied truthy peak-cooling value is
positive, any supplied COP is positive) with a nonzero supplied soil
conductivity, `run` completes without error and the result's `total_score`
lies in [0, 15]. -/
theorem c1_run_total_score_in_range (i : Inputs) (a : ℚ)
    (harea : i.buildingArea_m2 = some a) (hpos : 0 < a)
    (hpeak : ∀ q, i.peakCooling_kW = some (PeakVal.num q) → q ≠ 0 → 0 < q)
    (hcop : ∀ c, i.gsHeatPumpCOP = some c → 0 < c)
    (hsoil : ∀ s, i.soilConductivity_WpmK = some s → s ≠ 0) :
    ∃ r, run i = Except.ok r ∧ 0 ≤ r.total_score ∧ r.total_score ≤ 15 := by
  have hv := validate_inputs_ok_of i a harea hpos hpeak hcop
  have hs : (normalizeInputs i).base.soilConductivity_WpmK.getD 2.0 ≠ 0 := by
    rw [normalizeInputs_base]
    cases hx : i.soilConductivity_WpmK with
    | none => norm_num
    | some s => simpa [hx] using hsoil s hx
  obtain ⟨gl, hg⟩ := ground_loop_sizing_isOk (normalizeInputs i) _ hs
  refine ⟨assemble (normalizeInputs i) gl, run_eq_ok_of hv hg, ?_, ?_⟩ <;>
    · rw [assemble_total_score]
      have hb := ranking_scores_bounds (normalizeInputs i)
        (simple_thermal_model (normalizeInputs i))
        (energy_estimate (normalizeInputs i) (simple_thermal_model (normalizeInputs i)))
        (economic_analysis (normalizeInputs i)
          (energy_estimate (normalizeInputs i) (simple_thermal_model (normalizeInputs i)))
          (simple_thermal_model (normalizeInputs i)) gl)
      omega

/-- The worked example of the spec: 1000 m² Office, Tier-2, Composite, Delhi,
COP 4, no peak cooling supplied. -/
def iC1 : Inputs :=
  { buildingArea_m2 := some 1000, buildingType := some "Office",
    buildingTier := some "Tier-2", climate := some "Composite",
    state := some "Delhi", gsHeatPumpCOP := some 4 }

theorem c1_witness :
    run iC1 = Except.ok (resOf iC1) ∧
      0 ≤ (resOf iC1).total_score ∧ (resOf iC1).total_score ≤ 15 := by
  obtain ⟨r, hr, h0, h1⟩ := c1_run_total_score_in_range iC1 1000 rfl (by norm_num)
    (fun q hq => absurd hq (by simp [iC1]))
    (fun c hc => by injection hc with h2; rw [← h2]; norm_num)
    (fun s hs => by simp [iC1] at hs)
  have hres : resOf iC1 = r := by unfold resOf; rw [hr]
  rw [hres]
  exact ⟨hr, h0, h1⟩

/-! ### Claim C10 -/

/-- C10: a record supplying zero soil conductivity with otherwise valid
fields (area > 0, any supplied truthy peak positive, any supplied COP
positive) makes `run` raise the unclassified division-by-zero error — never a
`ValidationError`, since the validator does not check soil conductivity. -/
theorem c10_soil_zero_division (i : Inputs) (a : ℚ)
    (hsoil : i.soilConductivity_WpmK = some 0)
    (harea : i.buildingArea_m2 = some a) (hpos : 0 < a)
    (hpeak : ∀ q, i.peakCooling_kW = some (PeakVal.num q) → q ≠ 0 → 0 < q)
    (hcop : ∀ c, i.gsHeatPumpCOP = some c → 0 < c) :
    run i = Except.error EngineError.zeroDivision ∧
      ∀ m, run i ≠ Except.error (EngineError.validation m) := by
  have hv := validate_inputs_ok_of i a harea hpos hpeak hcop
  have hgz := ground_loop_sizing_soil_zero (normalizeInputs i)
    (simple_thermal_model (normalizeInputs i)).capacity_kW
    (by rw [normalizeInputs_base]; exact hsoil)
  have hrun : run i = Except.error EngineError.zeroDivision := by
    unfold run; rw [hv, hgz]
  refine ⟨hrun, fun m hm => ?_⟩
  rw [hrun] at hm
  injection hm with h2
  cases h2

/-- A concrete soil-zero record for C10. -/
def iC10 : Inputs := { buildingArea_m2 := some 800, soilConductivity_WpmK := some 0 }

theorem c10_witness :
    run iC10 = Except.error EngineError.zeroDivision ∧
      run iC10 ≠ Except.error (EngineError.validation "Invalid building area (buildingArea_m2)") := by
  have h := c10_soil_zero_division iC10 800 rfl rfl (by norm_num)
    (fun q hq => absurd hq (by simp [iC10]))
    (fun c hc => absurd hc (by simp [iC10]))
  exact ⟨h.1, h.2 _⟩

/-! ### Claim C2 -/

theorem normalizeInputs_estimated (i : Inputs)
    (h : i.peakCooling_kW = none ∨ i.peakCooling_kW = some PeakVal.emptyStr
          ∨ i.peakCooling_kW = some (PeakVal.num 0)) :
    normalizeInputs i =
      { base := i, peakCooling_kW := roundTo 2 (estimate_peak_cooling i),
        peakCooling_source := "Estimated from Indian building standards" } := by
  unfold normalizeInputs
  rcases h with h | h | h <;> simp [normalizeInputs, h]

theorem normalizeInputs_user (i : Inputs) (q : ℚ)
    (hq : i.peakCooling_kW = some (PeakVal.num q)) (hne : q ≠ 0) :
    normalizeInputs i =
      { base := i, peakCooling_kW := q, peakCooling_source := "User defined" } := by
  unfold normalizeInputs
  rw [hq]
  simp [hne]

theorem run_error_validation_eq (i : Inputs) (m : String)
    (h : run i = Except.error (EngineError.validation m)) :
    validate_inputs (normalizeInputs i) = Except.error (EngineError.validation m) := by
  unfold run at h
  cases hv : validate_inputs (normalizeInputs i) with
  | error e =>
    rw [hv] at h
    injection h with h2
    rw [h2]
  | ok u =>
    cases u
    rw [hv] at h
    cases hg : ground_loop_sizing (normalizeInputs i)
        (simple_thermal_model (normalizeInputs i)).capacity_kW with
    | error e =>
      have he := ground_loop_sizing_error_shape hg
      subst he
      rw [hg] at h
      injection h with h2
      cases h2
    | ok gl =>
      rw [hg] at h
      cases h

theorem validate_peak_msg (n : NormRec)
    (h : validate_inputs n = Except.error (EngineError.validation "peakCooling_kW must be > 0")) :
    n.peakCooling_kW ≠ 0 ∧ n.peakCooling_kW ≤ 0 := by
  unfold validate_inputs at h
  split at h
  · injection h with h2
    injection h2 with h3
    exact absurd h3 (by decide)
  · split_ifs at h with ha hp
    · injection h with h2
      injection h2 with h3
      exact absurd h3 (by decide)
    · exact hp
    · split at h
      · split_ifs at h with hcc
        injection h with h2
        injection h2 with h3
        exact absurd h3 (by decide)
      · cases h

/-- C2: `run` raises `ValidationError` exactly when, on the normalized record
(peak cooling already filled in by estimation), the building area is missing
or ≤ 0, or the (always-present) peak-cooling float is truthy (nonzero) and
≤ 0, or the COP is present and ≤ 0; and a caller who omits peak cooling while
supplying a positive area never receives the peak-cooling validation error. -/
theorem c2_validation_characterization :
    (∀ i : Inputs,
      ((∃ m, run i = Except.error (EngineError.validation m)) ↔
        (((normalizeInputs i).base.buildingArea_m2 = none
            ∨ (∃ a, (normalizeInputs i).base.buildingArea_m2 = some a ∧ a ≤ 0))
          ∨ ((normalizeInputs i).peakCooling_kW ≠ 0 ∧ (normalizeInputs i).peakCooling_kW ≤ 0)
          ∨ (∃ c, (normalizeInputs i).base.gsHeatPumpCOP = some c ∧ c ≤ 0))))
    ∧ (∀ i : Inputs, i.peakCooling_kW = none →
        (∃ a, i.buildingArea_m2 = some a ∧ 0 < a) →
        run i ≠ Except.error (EngineError.validation "peakCooling_kW must be > 0")) := by
  constructor
  · intro i
    rw [run_validation_error_iff, validate_inputs_error_iff]
  · rintro i hpk ⟨a, harea, hpos⟩ hcontra
    have hval := run_error_validation_eq i _ hcontra
    have hcond := validate_peak_msg _ hval
    rw [normalizeInputs_estimated i (Or.inl hpk)] at hcond
    have hnn : 0 ≤ roundTo 2 (estimate_peak_cooling i) :=
      roundTo_nonneg 2 (estimate_peak_cooling_nonneg i (by simp [harea, hpos.le]))
    exact hcond.1 (le_antisymm hcond.2 hnn)

/-- A record with positive area and no peak-cooling key. -/
def iC2 : Inputs := { buildingArea_m2 := some 600 }

theorem c2_witness :
    run iC2 ≠ Except.error (EngineError.validation "peakCooling_kW must be > 0") :=
  c2_validation_characterization.2 iC2 rfl ⟨600, rfl, by norm_num⟩

/-! ### Claim C3 -/

/-- C3: on a successful run, an absent/empty/zero peak cooling supply yields
the "Estimated from Indian building standards" tag with value
round2(area × intensity), where the intensity lookup falls back to 0.15 for an
unknown type or unknown tier; a truthy supplied value yields "User defined"
with the coerced value itself, unrounded. -/
theorem c3_peak_cooling_normalization :
    (∀ (i : Inputs) (r : RunResult), run i = Except.ok r →
      (((i.peakCooling_kW = none ∨ i.peakCooling_kW = some PeakVal.emptyStr
          ∨ i.peakCooling_kW = some (PeakVal.num 0)) →
         r.inputs.peakCooling_source = "Estimated from Indian building standards" ∧
         r.inputs.peakCooling_kW =
           roundTo 2 ((i.buildingArea_m2.getD 0) *
             intensityFor (i.buildingType.getD "Office") (i.buildingTier.getD "Tier-2")))
       ∧ (∀ q, i.peakCooling_kW = some (PeakVal.num q) → q ≠ 0 →
           r.inputs.peakCooling_source = "User defined" ∧ r.inputs.peakCooling_kW = q)))
    ∧ (∀ bt t, INDIA_COOLING_INTENSITY bt = none → intensityFor bt t = 0.15)
    ∧ (∀ bt tbl t, INDIA_COOLING_INTENSITY bt = some tbl → tbl.lookup t = none →
        intensityFor bt t = 0.15) := by
  refine ⟨?_, ?_, ?_⟩
  · intro i r h
    have hinp : r.inputs = normalizeInputs i := by
      obtain ⟨hv, gl, hg, hr⟩ := run_ok_elim h
      rw [hr]
      rfl
    constructor
    · intro hest
      rw [hinp, normalizeInputs_estimated i hest]
      exact ⟨rfl, rfl⟩
    · intro q hq hne
      rw [hinp, normalizeInputs_user i q hq hne]
      exact ⟨rfl, rfl⟩
  · intro bt t h
    unfold intensityFor
    rw [h]
  · intro bt tbl t h1 h2
    unfold intensityFor
    simp only [h1, h2, Option.getD_none]

/-- A record relying on peak-cooling estimation (Office, Tier-2, 1000 m²). -/
def iC3 : Inputs :=
  { buildingArea_m2 := some 1000, buildingType := some "Office",
    buildingTier := some "Tier-2" }

theorem c3_witness :
    run iC3 = Except.ok (resOf iC3) ∧
      (resOf iC3).inputs.peakCooling_source = "Estimated from Indian building standards" ∧
      (resOf iC3).inputs.peakCooling_kW =
        roundTo 2 ((iC3.buildingArea_m2.getD 0) *
          intensityFor (iC3.buildingType.getD "Office") (iC3.buildingTier.getD "Tier-2")) := by
  have hrun : run iC3 = Except.ok (resOf iC3) := by with_unfolding_all rfl
  have h := (c3_peak_cooling_normalization.1 iC3 (resOf iC3) hrun).1 (Or.inl rfl)
  exact ⟨hrun, h.1, h.2⟩

/-! ### Claim C4 -/

/-- A record with positive area and no climate key. -/
def iC4none : Inputs := { buildingArea_m2 := some 1000 }

/-- The same record with climate "Composite" supplied explicitly. -/
def iC4comp : Inputs := { buildingArea_m2 := some 1000, climate := some "Composite" }

/-- C4 (code divergence): `ranking_scores` defaults an absent climate key to
"Temperate" (source line 301), unlike every other stage which defaults to
"Composite"; so omitting the climate field yields climate sub-score 2, while
explicitly supplying "Composite" yields 3 — contradicting the claim that the
two coincide at 3. -/
theorem c4_code_divergence :
    run iC4none = Except.ok (resOf iC4none) ∧
    (resOf iC4none).scores.climate = 2 ∧
    run iC4comp = Except.ok (resOf iC4comp) ∧
    (resOf iC4comp).scores.climate = 3 ∧
    ((INDIA_CLIMATE_ZONES "Composite").getD compositeData).suitability_score = 3 := by
  refine ⟨?_, ?_, ?_, ?_, ?_⟩ <;> with_unfolding_all rfl

/-! ### Claim C5 -/

/-- C5: on every successful run, `total_score` is the sum of all five
sub-scores while `weighted_score` is round3 of the weighted sum over
load/capacity/energy/climate only — the economic sub-score is excluded from
the weighted aggregate though included in the total. -/
theorem c5_total_and_weighted (i : Inputs) (r : RunResult) (h : run i = Except.ok r) :
    r.total_score = r.scores.load + r.scores.capacity + r.scores.energy
        + r.scores.climate + r.scores.economic
    ∧ r.weighted_score = roundTo 3 (0.25 * (r.scores.load : ℚ)
        + 0.25 * (r.scores.capacity : ℚ) + 0.3 * (r.scores.energy : ℚ)
        + 0.2 * (r.scores.climate : ℚ)) := by
  obtain ⟨hv, gl, hg, hr⟩ := run_ok_elim h
  subst hr
  exact ⟨rfl, rfl⟩

/-- A record for the C5 witness. -/
def iC5 : Inputs := { buildingArea_m2 := some 2000, climate := some "Hot-Dry" }

theorem c5_witness :
    run iC5 = Except.ok (resOf iC5) ∧
      (resOf iC5).total_score = (resOf iC5).scores.load + (resOf iC5).scores.capacity
        + (resOf iC5).scores.energy + (resOf iC5).scores.climate
        + (resOf iC5).scores.economic ∧
      (resOf iC5).weighted_score = roundTo 3 (0.25 * ((resOf iC5).scores.load : ℚ)
        + 0.25 * ((resOf iC5).scores.capacity : ℚ)
        + 0.3 * ((resOf iC5).scores.energy : ℚ)
        + 0.2 * ((resOf iC5).scores.climate : ℚ)) := by
  have hrun : run iC5 = Except.ok (resOf iC5) := by with_unfolding_all rfl
  have h := c5_total_and_weighted iC5 (resOf iC5) hrun
  exact ⟨hrun, h.1, h.2⟩

/-! ### Claim C6 -/

/-- The ground-loop record of a successful `ground_loop_sizing` call, as a
total function (junk on error), for stating closed concrete facts. -/
def glResOf (n : NormRec) (c : ℚ) : GroundLoopOut :=
  match ground_loop_sizing n c with
  | Except.ok g => g
  | Except.error _ => default

/-- A normalized record whose soil conductivity 2.22 makes soil × 8 = 17.76
hit the one-decimal rounding of the returned `watts_per_meter` field. -/
def nC6 : NormRec :=
  { base := { buildingArea_m2 := some 100, soilConductivity_WpmK := some 2.22 },
    peakCooling_kW := 15, peakCooling_source := "User defined" }

/-- C6 (counterexample): with soil conductivity 2.22 > 0 the returned
`watts_per_meter` field is 17.8 — the 1-decimal rounding of 2.22 × 8 = 17.76 —
so the claim's unrounded equation `watts_per_meter = soilConductivity × 8`
fails on the returned record. -/
theorem c6_counterexample :
    (0:ℚ) < 2.22 ∧ nC6.base.soilConductivity_WpmK = some 2.22 ∧
    ground_loop_sizing nC6 1 = Except.ok (glResOf nC6 1) ∧
    (glResOf nC6 1).watts_per_meter ≠ 2.22 * 8 := by
  refine ⟨by norm_num, rfl, by with_unfolding_all rfl, by with_unfolding_all decide⟩

/-- C6 (amended): for every capacity and every supplied soil conductivity
s > 0, `ground_loop_sizing` succeeds with watts_per_meter = round1(s × 8)
(the loop-length division uses the unrounded s × 8), loop_length =
round(capacity × 1000 / (s × 8)) whole metres, borehole_count =
max(1, round(loop_length_raw / 100)) — hence always ≥ 1 —, land_area =
borehole_count × 25 and borehole_cost = borehole_count × 100 × 900. -/
theorem c6_ground_loop_sizing_formulas (n : NormRec) (c s : ℚ)
    (hs : n.base.soilConductivity_WpmK = some s) (hpos : 0 < s) :
    ∃ gl, ground_loop_sizing n c = Except.ok gl ∧
      gl.watts_per_meter = roundTo 1 (s * 8) ∧
      gl.loop_length_m = (rnd (c * 1000 / (s * 8)) : ℚ) ∧
      gl.borehole_count = max 1 (rnd (c * 1000 / (s * 8) / 100)) ∧
      1 ≤ gl.borehole_count ∧
      gl.land_area_m2 = (gl.borehole_count : ℚ) * 25 ∧
      gl.borehole_cost_INR = (gl.borehole_count : ℚ) * 100 * BOREHOLE_COST_PER_METER := by
  have h8 : s * 8 ≠ 0 := (mul_pos hpos (by norm_num)).ne'
  unfold ground_loop_sizing
  rw [hs]
  simp only [Option.getD_some]
  rw [if_neg h8]
  refine ⟨_, rfl, rfl, rfl, rfl, le_max_left _ _, ?_, ?_⟩ <;> push_cast <;> ring

/-- A normalized record with soil conductivity 1.8 for the C6 witness. -/
def nC6w : NormRec :=
  { base := { buildingArea_m2 := some 1000, soilConductivity_WpmK := some 1.8 },
    peakCooling_kW := 140, peakCooling_source := "User defined" }

theorem c6_witness :
    ground_loop_sizing nC6w 168 = Except.ok (glResOf nC6w 168) ∧
      (glResOf nC6w 168).watts_per_meter = roundTo 1 (1.8 * 8) ∧
      1 ≤ (glResOf nC6w 168).borehole_count := by
  obtain ⟨gl, hgl, hw, _, _, hb, _, _⟩ :=
    c6_ground_loop_sizing_formulas nC6w 168 1.8 rfl (by norm_num)
  have hgr : glResOf nC6w 168 = gl := by unfold glResOf; rw [hgl]
  rw [hgr]
  exact ⟨hgl, hw, hb⟩

/-! ### Claim C7 -/

set_option maxRecDepth 4000 in
theorem roundTo_one_999 : roundTo 1 (999:ℚ) = 999 := by with_unfolding_all decide

/-- C7: the payback is capital / savings rounded to 1 decimal when the annual
INR savings are positive and the sentinel 999 otherwise; the economic
sub-score bands payback by < 7 / < 12 / < 18; in particular zero savings give
payback 999 and economic score 0. -/
theorem c7_payback_and_economic_score :
    (∀ (n : NormRec) (e : EnergyOut) (m : ModelOut) (gl : GroundLoopOut),
      (0 < e.savings_kWh * electricityRate n →
        (economic_analysis n e m gl).payback_years =
          roundTo 1 (capitalCost n m gl / (e.savings_kWh * electricityRate n)))
      ∧ (¬0 < e.savings_kWh * electricityRate n →
        (economic_analysis n e m gl).payback_years = 999))
    ∧ (∀ (n : NormRec) (m : ModelOut) (e : EnergyOut) (ec : EconOut),
        (ranking_scores n m e ec).economic =
          (if ec.payback_years < 7 then 3 else if ec.payback_years < 12 then 2
            else if ec.payback_years < 18 then 1 else 0))
    ∧ (∀ (n : NormRec) (e : EnergyOut) (m : ModelOut) (gl : GroundLoopOut) (ec : EconOut),
        e.savings_kWh * electricityRate n = 0 →
        ec = economic_analysis n e m gl →
        ec.payback_years = 999 ∧ (ranking_scores n m e ec).economic = 0) := by
  refine ⟨?_, ?_, ?_⟩
  · intro n e m gl
    constructor
    · intro hpos
      unfold economic_analysis
      dsimp only
      rw [if_pos hpos]
    · intro hneg
      unfold economic_analysis
      dsimp only
      rw [if_neg hneg]
      exact roundTo_one_999
  · intro n m e ec
    rfl
  · intro n e m gl ec hz hec
    have h999 : ec.payback_years = 999 := by
      subst hec
      unfold economic_analysis
      dsimp only
      rw [if_neg (by rw [hz]; exact lt_irrefl 0)]
      exact roundTo_one_999
    refine ⟨h999, ?_⟩
    unfold ranking_scores
    dsimp only
    rw [h999]
    norm_num

/-- A normalized record for the C7 witness (Office defaults, National
Average state). -/
def nC7 : NormRec :=
  { base := { buildingArea_m2 := some 1000 }, peakCooling_kW := 140,
    peakCooling_source := "User defined" }

/-- Energy figures with positive savings for the C7 witness. -/
def eC7 : EnergyOut :=
  { annual_kWh := 52920, baseline_kWh := 70560, savings_kWh := 17640,
    operating_hours := 2160, effective_hours := 1512, diversity_factor := 0.7 }

/-- The same energy figures with zero savings. -/
def eC7zero : EnergyOut := { eC7 with savings_kWh := 0 }

/-- Thermal model output for the C7 witness. -/
def mC7 : ModelOut := { load_kW := 140, capacity_kW := 168, c_l_ratio := 1.2 }

/-- Ground-loop output for the C7 witness. -/
def glC7 : GroundLoopOut :=
  { loop_length_m := 10500, borehole_count := 105, land_area_m2 := 2625,
    watts_per_meter := 16, borehole_cost_INR := 9450000 }

set_option maxRecDepth 8000 in
theorem c7_witness :
    (economic_analysis nC7 eC7 mC7 glC7).payback_years =
      roundTo 1 (capitalCost nC7 mC7 glC7 / (eC7.savings_kWh * electricityRate nC7)) ∧
    (economic_analysis nC7 eC7zero mC7 glC7).payback_years = 999 ∧
    (ranking_scores nC7 mC7 eC7zero (economic_analysis nC7 eC7zero mC7 glC7)).economic = 0 := by
  have h1 := (c7_payback_and_economic_score.1 nC7 eC7 mC7 glC7).1
    (by with_unfolding_all decide)
  have h2 := c7_payback_and_economic_score.2.2 nC7 eC7zero mC7 glC7
    (economic_analysis nC7 eC7zero mC7 glC7) (by with_unfolding_all decide) rfl
  exact ⟨h1, h2.1, h2.2⟩

/-! ### Claim C8 -/

/-- C8: on every successful run the energy sub-score is the banding function
of `savings_kWh` with strict upper bounds: 0 for ≤ 0, 1 below 20000, 2 below
50000, 3 otherwise; savings of exactly 20000 score 2 and 19999.99 scores 1. -/
theorem c8_energy_score_banding :
    (∀ (i : Inputs) (r : RunResult), run i = Except.ok r →
      r.scores.energy =
        (if r.energy.savings_kWh ≤ 0 then 0 else if r.energy.savings_kWh < 20000 then 1
          else if r.energy.savings_kWh < 50000 then 2 else 3))
    ∧ (∀ (n : NormRec) (m : ModelOut) (e : EnergyOut) (ec : EconOut),
        e.savings_kWh = 20000 → (ranking_scores n m e ec).energy = 2)
    ∧ (∀ (n : NormRec) (m : ModelOut) (e : EnergyOut) (ec : EconOut),
        e.savings_kWh = 19999.99 → (ranking_scores n m e ec).energy = 1) := by
  refine ⟨?_, ?_, ?_⟩
  · intro i r h
    obtain ⟨hv, gl, hg, hr⟩ := run_ok_elim h
    subst hr
    rfl
  · intro n m e ec h
    unfold ranking_scores
    dsimp only
    rw [h]
    norm_num
  · intro n m e ec h
    unfold ranking_scores
    dsimp only
    rw [h]
    norm_num

/-- A record for the C8 run-level witness. -/
def iC8 : Inputs := { buildingArea_m2 := some 1500, climate := some "Warm-Humid" }

/-- A normalized record with trivial base for the C8 boundary witnesses. -/
def nC8 : NormRec := { base := {}, peakCooling_kW := 1, peakCooling_source := "User defined" }

/-- A minimal thermal model output for the C8 boundary witnesses. -/
def mC8 : ModelOut := { load_kW := 1, capacity_kW := 1.2, c_l_ratio := 1.2 }

/-- Energy figures with savings exactly 20000. -/
def eC8a : EnergyOut :=
  { annual_kWh := 0, baseline_kWh := 0, savings_kWh := 20000,
    operating_hours := 0, effective_hours := 0, diversity_factor := 0.7 }

/-- Energy figures with savings 19999.99. -/
def eC8b : EnergyOut := { eC8a with savings_kWh := 19999.99 }

/-- An economics record for the C8 boundary witnesses. -/
def ecC8 : EconOut :=
  { electricity_rate := 9.5, geotabs_cost_INR := 0, baseline_cost_INR := 0,
    annual_savings_INR := 0, capital_cost_INR := 0,
    capital_cost_breakdown :=
      { heat_pump := 0, ground_loop := 0, tabs_integration := 0, controls := 0 },
    payback_years := 999 }

theorem c8_witness :
    (run iC8 = Except.ok (resOf iC8) ∧
      (resOf iC8).scores.energy =
        (if (resOf iC8).energy.savings_kWh ≤ 0 then 0
          else if (resOf iC8).energy.savings_kWh < 20000 then 1
          else if (resOf iC8).energy.savings_kWh < 50000 then 2 else 3))
    ∧ (ranking_scores nC8 mC8 eC8a ecC8).energy = 2
    ∧ (ranking_scores nC8 mC8 eC8b ecC8).energy = 1 := by
  have hrun : run iC8 = Except.ok (resOf iC8) := by with_unfolding_all rfl
  exact ⟨⟨hrun, c8_energy_score_banding.1 iC8 (resOf iC8) hrun⟩,
    c8_energy_score_banding.2.1 nC8 mC8 eC8a ecC8 rfl,
    c8_energy_score_banding.2.2 nC8 mC8 eC8b ecC8 rfl⟩

/-! ### Claim C9 -/

/-- A record with positive savings for the C9 difference fact. -/
def iC9 : Inputs := { buildingArea_m2 := some 1000, state := some "Delhi" }

/-- C9: each of the three CO2 figures is its own energy figure × 0.82 / 1000
rounded independently to 3 decimals; `savings_tonnes` is computed from
`savings_kWh` rather than derived as `geotabs_tonnes − baseline_tonnes`, and
on a concrete input the two differ. -/
theorem c9_co2_rounding :
    (∀ (i : Inputs) (r : RunResult), run i = Except.ok r →
      r.co2.geotabs_tonnes = roundTo 3 (r.energy.annual_kWh * 0.82 / 1000) ∧
      r.co2.baseline_tonnes = roundTo 3 (r.energy.baseline_kWh * 0.82 / 1000) ∧
      r.co2.savings_tonnes = roundTo 3 (r.energy.savings_kWh * 0.82 / 1000))
    ∧ (run iC9 = Except.ok (resOf iC9) ∧
        (resOf iC9).co2.savings_tonnes ≠
          (resOf iC9).co2.geotabs_tonnes - (resOf iC9).co2.baseline_tonnes) := by
  refine ⟨?_, ?_, ?_⟩
  · intro i r h
    obtain ⟨hv, gl, hg, hr⟩ := run_ok_elim h
    subst hr
    exact ⟨rfl, rfl, rfl⟩
  · with_unfolding_all rfl
  · with_unfolding_all decide

theorem c9_witness :
    run iC9 = Except.ok (resOf iC9) ∧
      (resOf iC9).co2.geotabs_tonnes =
        roundTo 3 ((resOf iC9).energy.annual_kWh * 0.82 / 1000) := by
  have hrun : run iC9 = Except.ok (resOf iC9) := by with_unfolding_all rfl
  exact ⟨hrun, (c9_co2_rounding.1 iC9 (resOf iC9) hrun).1⟩
